import Mathlib

/-!
Shallow embedding of the result-parsing and client logic of the `pyrelatics2`
repository (files `pyrelatics2/result_classes.py` and
`pyrelatics_webservices/client.py`), together with theorems settling the
frozen claims about its specification.

Conventions of the embedding:
* A Python value that may be `None` is an `Option`.
* A Python attribute that may be absent (`hasattr` probing) is an `Option`
  field; `hasattr` is `Option.isSome`.
* Python exceptions are modelled with `Except PyError`.
* `datetime` instants are whole seconds as `Int`; `timedelta` values are
  their difference in seconds.
* Instance attributes of `BaseResult` that are never assigned keep the
  class-level `dataclasses.field(...)` sentinel object (the base class is
  not itself a dataclass, so the decorator of the subclasses does not turn
  these annotations into fields); such an unassigned attribute is modelled
  as `none` and is truthy in Python truth testing.
-/

/-- Python exceptions raised by the modelled code. -/
inductive PyError where
  | typeError (msg : String)
  | valueError (msg : String)
  | keyError (msg : String)
  | runtimeError (msg : String)
  | fileNotFoundError (path : String)
deriving DecidableEq, Repr

/-- Whether the first character list starts with the second. -/
def charsStartWith : List Char → List Char → Bool
  | _, [] => true
  | [], _ :: _ => false
  | c :: cs, d :: ds => c == d && charsStartWith cs ds

/-- Whether the first character list contains the second as a contiguous
run. -/
def charsContain : List Char → List Char → Bool
  | [], needle => charsStartWith [] needle
  | c :: rest, needle => charsStartWith (c :: rest) needle || charsContain rest needle

/-- Substring test, `needle in haystack` in Python. -/
def strContains (haystack needle : String) : Bool :=
  charsContain haystack.data needle.data

/-- Python slicing `s[n:]` (strings index by code point). -/
def pyDropChars (s : String) (n : Nat) : String := ⟨s.data.drop n⟩

/-- Accumulate the value of a run of decimal digits; `none` on a
non-digit. -/
def parseDigits : List Char → Nat → Option Nat
  | [], acc => some acc
  | c :: cs, acc =>
    if c.isDigit then parseDigits cs (acc * 10 + (c.toNat - 48)) else none

/-- Python `int(s)` on a plain decimal literal, possibly signed and with
leading zeros (surrounding whitespace or underscores, which Python would
also accept but which never occur in the parsed message texts, are
rejected); raises `ValueError` on anything else. -/
def pyInt (s : String) : Except PyError Int :=
  let bad : Except PyError Int :=
    Except.error (PyError.valueError ("invalid literal for int: " ++ s))
  match s.data with
  | [] => bad
  | '-' :: rest =>
    match rest with
    | [] => bad
    | _ :: _ =>
      match parseDigits rest 0 with
      | some n => Except.ok (-(n : Int))
      | none => bad
  | '+' :: rest =>
    match rest with
    | [] => bad
    | _ :: _ =>
      match parseDigits rest 0 with
      | some n => Except.ok (n : Int)
      | none => bad
  | cs =>
    match parseDigits cs 0 with
    | some n => Except.ok (n : Int)
    | none => bad

/-- Python `dict` lookup on an insertion-ordered association list (keys
are unique). -/
def pyDictGet {α : Type} : List (String × α) → String → Option α
  | [], _ => none
  | p :: rest, k => if p.1 == k then some p.2 else pyDictGet rest k

/-- Python `d[k] = v` on an insertion-ordered association list: an existing
key keeps its position and gets the new value, a new key is appended. -/
def pyDictSet {α : Type} : List (String × α) → String → α → List (String × α)
  | [], k, v => [(k, v)]
  | p :: rest, k, v =>
    if p.1 == k then (k, v) :: rest else p :: pyDictSet rest k v

/- ----------------------------------------------------------------------
   The suds response object graph, as probed by `result_classes.py`.
   ---------------------------------------------------------------------- -/

/-- One `(Message)` node of an `Import` response.  The suds attributes
`_Time` and `_Result` are the fields `attrTime` and `attrResult`. -/
structure SudsMessage where
  value : String
  attrTime : String
  attrResult : String
deriving DecidableEq, Repr

/-- One element node of `Import.Elements[0]`; suds attributes `_Action`,
`_ID`, `_ForeignKey`. -/
structure SudsElement where
  attrAction : String
  attrID : String
  attrForeignKey : String
deriving DecidableEq, Repr

/-- The `Import` node: `Message` and `Elements` may be absent. -/
structure SudsImport where
  Message : Option (List SudsMessage)
  Elements : Option (List (List SudsElement))
deriving DecidableEq, Repr

/-- Value of a `Report.Documents` node.  When it is a `suds.sax.text.Text`
node it carries the base64 encoding of a zip archive; base64 decoding and
zip extraction are Python standard-library behaviour, so the payload is
modelled directly as the (filename, bytes) entry list of that archive, in
archive order. A node of any other type is `nonText`. -/
inductive DocValue where
  | text (entries : List (String × String))
  | nonText
deriving DecidableEq, Repr

/-- The `Report` node: `Documents` may be absent. -/
structure SudsReport where
  Documents : Option DocValue
deriving DecidableEq, Repr

/-- The `Export` node: the `_Error` attribute may be absent. -/
structure SudsExport where
  attrError : Option String
deriving DecidableEq, Repr

/-- A raw suds response object: each of the three top-level fields probed by
the code may be absent.  A whole response that is Python `None` is modelled
as `none : Option SudsResponse` at the use sites. -/
structure SudsResponse where
  Export : Option SudsExport
  Report : Option SudsReport
  Import : Option SudsImport
deriving DecidableEq, Repr

/-- `repr(suds_response)` for the relevant inputs: `repr(None) = "None"`;
the repr of a suds object is modelled as a rendering that lists the present
top-level fields (its exact text is used only as an opaque serialization). -/
def reprSuds : Option SudsResponse → String
  | none => "None"
  | some r =>
      "(reply)\x7b" ++ (if r.Export.isSome then " Export" else "")
        ++ (if r.Report.isSome then " Report" else "")
        ++ (if r.Import.isSome then " Import" else "") ++ " \x7d"

/- ----------------------------------------------------------------------
   BaseResult
   ---------------------------------------------------------------------- -/

/-- The attributes shared through `BaseResult`.  `none` means the instance
attribute was never assigned, so attribute access still yields the
class-level `dataclasses.field(...)` sentinel object. -/
structure BaseResult where
  has_error : Option Bool
  error_msg : Option String
deriving DecidableEq, Repr

/-- Python truth testing of the `has_error` attribute: an assigned boolean
is itself; an unassigned attribute yields the class-level
`dataclasses.field(...)` sentinel, an ordinary object, which is truthy. -/
def fieldTruthy : Option Bool → Bool
  | none => true
  | some b => b

/-- `BaseResult.handle_suds_response_errors`.  Note the `else` branch of the
`_Error` probe executes `self.error_msg = repr()`: `repr` called with no
argument, which raises `TypeError`. -/
def handle_suds_response_errors (b : BaseResult) (suds_response : Option SudsResponse) :
    Except PyError BaseResult :=
  let b1 :=
    match suds_response with
    | none => { b with has_error := some true, error_msg := some "" }
    | some _ => b
  match suds_response with
  | none => Except.ok b1
  | some r =>
    match r.Export with
    | none => Except.ok b1
    | some ex =>
      let b2 := { b1 with has_error := some true }
      match ex.attrError with
      | some e => Except.ok { b2 with error_msg := some e }
      | none => Except.error (PyError.typeError "repr() takes exactly one argument (0 given)")

/- ----------------------------------------------------------------------
   ExportResult
   ---------------------------------------------------------------------- -/

/-- `ExportResult`: `data` holds the (possibly `None`, possibly mutated)
response tree; `documents` is the filename → bytes dict. -/
structure ExportResult where
  base : BaseResult
  data : Option SudsResponse
  documents : List (String × String)
deriving DecidableEq, Repr

/-- `ExportResult.from_suds`.  After the common error handling, a
`Report.Documents` text node resets `has_error` to `False`, fills the
documents dict from the decoded zip entries and deletes the `Documents`
node from the response tree; the mutated tree is stored in `data`; finally
a response with neither `Export` nor `Report` is flagged as unrecognized. -/
def ExportResult.from_suds (suds_response : Option SudsResponse) :
    Except PyError ExportResult :=
  match handle_suds_response_errors { has_error := none, error_msg := none } suds_response with
  | Except.error e => Except.error e
  | Except.ok base0 =>
    let step :
        BaseResult × Option SudsResponse × List (String × String) :=
      match suds_response with
      | some r =>
        match r.Report with
        | some rep =>
          match rep.Documents with
          | some (DocValue.text entries) =>
              ({ base0 with has_error := some false },
               some { r with Report := some { rep with Documents := none } },
               entries.foldl (fun d kv => pyDictSet d kv.1 kv.2) [])
          | _ => (base0, suds_response, [])
        | none => (base0, suds_response, [])
      | none => (base0, suds_response, [])
    let base1 := step.1
    let resp1 := step.2.1
    let docs := step.2.2
    let base2 :=
      match resp1 with
      | some r =>
        if r.Export.isNone && r.Report.isNone then
          { base1 with has_error := some true, error_msg := some (reprSuds (some r)) }
        else base1
      | none =>
        { base1 with has_error := some true, error_msg := some (reprSuds none) }
    Except.ok { base := base2, data := resp1, documents := docs }

/-- `ExportResult.__bool__`: `not self.has_error` under Python truth
testing. -/
def ExportResult.toBool (r : ExportResult) : Bool :=
  !(fieldTruthy r.base.has_error)

/- ----------------------------------------------------------------------
   ImportResult
   ---------------------------------------------------------------------- -/

/-- `ImportMessage` (the time string is kept as received; its
`fromisoformat` conversion is a standard-library parse of a well-formed
ISO time and is modelled as the identity on the string). -/
structure ImportMessage where
  time : String
  status : String
  message : String
  row : Int
deriving DecidableEq, Repr

/-- `ImportElement`. -/
structure ImportElement where
  action : String
  id : String
  foreign_key : String
deriving DecidableEq, Repr

/-- `ImportResult`; `elapsed_time` is kept in milliseconds. -/
structure ImportResult where
  base : BaseResult
  messages : List ImportMessage
  elements : List ImportElement
  total_rows : Option Int
  elapsed_time : Option Int
deriving DecidableEq, Repr

/-- The `for msg in suds_response.Import.Message` loop of
`ImportResult.from_suds`: a `Progress` message first updates the running
row counter (or `total_rows` / `elapsed_time`) from its text, then every
message is appended tagged with the current row. -/
def processMessages (msgs : List SudsMessage) (row : Int) (acc : ImportResult) :
    Except PyError ImportResult :=
  match msgs with
  | [] => Except.ok acc
  | msg :: rest =>
    let upd : Except PyError (Int × ImportResult) :=
      if msg.attrResult == "Progress" then
        if strContains msg.value "Processing row :" then
          match pyInt (pyDropChars msg.value 17) with
          | Except.error e => Except.error e
          | Except.ok n => Except.ok (n, acc)
        else if strContains msg.value "Total rows imported:" then
          match pyInt (pyDropChars msg.value 21) with
          | Except.error e => Except.error e
          | Except.ok n => Except.ok (row, { acc with total_rows := some n })
        else if strContains msg.value "Total time (ms):" then
          match pyInt (pyDropChars msg.value 17) with
          | Except.error e => Except.error e
          | Except.ok n => Except.ok (row, { acc with elapsed_time := some n })
        else Except.ok (row, acc)
      else Except.ok (row, acc)
    match upd with
    | Except.error e => Except.error e
    | Except.ok (row1, acc1) =>
      processMessages rest row1
        { acc1 with
          messages := acc1.messages ++
            [{ time := msg.attrTime
               status := msg.attrResult
               message := msg.value
               row := row1 }] }

/-- `ImportResult.from_suds`. -/
def ImportResult.from_suds (suds_response : Option SudsResponse) :
    Except PyError ImportResult :=
  match handle_suds_response_errors { has_error := none, error_msg := none } suds_response with
  | Except.error e => Except.error e
  | Except.ok base0 =>
    let init : ImportResult :=
      { base := base0
        messages := []
        elements := []
        total_rows := none
        elapsed_time := none }
    let afterImport : Except PyError ImportResult :=
      match suds_response with
      | some r =>
        match r.Import with
        | some imp =>
          let res0 := { init with base := { base0 with has_error := some false } }
          let res1 : Except PyError ImportResult :=
            match imp.Message with
            | some msgs => processMessages msgs 0 res0
            | none => Except.ok res0
          match res1 with
          | Except.error e => Except.error e
          | Except.ok res1 =>
            match imp.Elements with
            | some groups =>
              if groups.length > 0 then
                Except.ok
                  { res1 with
                    elements := (groups.headD []).map
                      (fun e => { action := e.attrAction
                                  id := e.attrID
                                  foreign_key := e.attrForeignKey }) }
              else Except.ok res1
            | none => Except.ok res1
        | none => Except.ok init
      | none => Except.ok init
    match afterImport with
    | Except.error e => Except.error e
    | Except.ok res =>
      let res2 :=
        match suds_response with
        | some r =>
          if r.Export.isNone && r.Import.isNone then
            { res with base := { res.base with
                                 has_error := some true
                                 error_msg := some (reprSuds (some r)) } }
          else res
        | none =>
          { res with base := { res.base with
                               has_error := some true
                               error_msg := some (reprSuds none) } }
      Except.ok res2

/-- `ImportResult.__bool__`: `not self.has_error` under Python truth
testing. -/
def ImportResult.toBool (r : ImportResult) : Bool :=
  !(fieldTruthy r.base.has_error)

/- ----------------------------------------------------------------------
   ClientCredential (pyrelatics_webservices/client.py)
   ---------------------------------------------------------------------- -/

/-- The `.seconds` attribute of a Python `timedelta` of `d` whole seconds:
the timedelta is normalized to `days` in ℤ and `seconds` in `[0, 86400)`,
so `.seconds` is the mathematical remainder of `d` modulo 86400 (for a
negative timedelta this wraps to a large positive value). -/
def pySecondsAttr (d : Int) : Int := d % 86400

/-- A cached entry of `ClientCredential.tokens`; `expires_on` is an
absolute instant in seconds. -/
structure TokenEntry where
  token : String
  expires_on : Int
deriving DecidableEq, Repr

/-- `ClientCredential`: OAuth2 client credentials plus the per-hostname
token cache (a Python dict, modelled as an insertion-ordered association
list). -/
structure ClientCredential where
  client_id : String
  client_secret : String
  tokens : List (String × TokenEntry)
deriving DecidableEq, Repr

/-- The JSON body answered by the token endpoint, as probed by
`retrieve_token`: an `error` (with description), a body lacking
`access_token`, or a token with its `expires_in` in seconds. -/
inductive TokenResponse where
  | err (e : String) (desc : String)
  | missing
  | good (access_token : String) (expires_in : Int)
deriving DecidableEq, Repr

/-- `ClientCredential.retrieve_token`: the HTTP POST is external; `now` is
`datetime.datetime.now()` at request time (`requested_on`) and `resp` the
parsed JSON it returns.  An `error` body raises `RuntimeError`, a body
without `access_token` raises `KeyError`; on success the cache entry for
`hostname` is stored with `expires_on = requested_on + expires_in`. -/
def ClientCredential.retrieve_token (cc : ClientCredential) (hostname : String)
    (now : Int) (resp : TokenResponse) : Except PyError ClientCredential :=
  match resp with
  | TokenResponse.err e desc =>
      Except.error (PyError.runtimeError
        ("Token request failed: " ++ e ++ " (" ++ desc ++ ")"))
  | TokenResponse.missing =>
      Except.error (PyError.keyError "Token request failed: No access_token was given")
  | TokenResponse.good tok expires_in =>
      let entry : TokenEntry := { token := tok, expires_on := now + expires_in }
      Except.ok { cc with tokens := pyDictSet cc.tokens hostname entry }

/-- `ClientCredential.get_token`: retrieves a fresh token when
`force_refresh` is set, no entry exists for `hostname`, or
`(expires_on - now).seconds <= 300`; otherwise reuses the cache.  Returns
the updated credential object, the returned token, and whether a token
request was issued. -/
def ClientCredential.get_token (cc : ClientCredential) (hostname : String)
    (force_refresh : Bool) (now : Int) (resp : TokenResponse) :
    Except PyError (ClientCredential × String × Bool) :=
  if force_refresh ||
      (match pyDictGet cc.tokens hostname with
       | none => true
       | some entry => decide (pySecondsAttr (entry.expires_on - now) ≤ 300)) then
    match cc.retrieve_token hostname now resp with
    | Except.error e => Except.error e
    | Except.ok cc1 =>
      match pyDictGet cc1.tokens hostname with
      | some entry => Except.ok (cc1, entry.token, true)
      | none => Except.error (PyError.keyError hostname)
  else
    match pyDictGet cc.tokens hostname with
    | some entry => Except.ok (cc, entry.token, false)
    | none => Except.error (PyError.keyError hostname)

/- ----------------------------------------------------------------------
   RelaticsWebservices.run_import
   ---------------------------------------------------------------------- -/

/-- Index of the last occurrence of a character among a list of
characters, scanning with a running index. -/
def lastIndexAux : List Char → Char → Nat → Option Nat → Option Nat
  | [], _, _, best => best
  | c :: cs, target, i, best =>
      lastIndexAux cs target (i + 1) (if c == target then some i else best)

/-- Index of the last occurrence of a character in a string, or `none`
(Python `str.rfind`, restricted to the found/not-found distinction). -/
def lastIndexOf (s : String) (c : Char) : Option Nat :=
  lastIndexAux s.data c 0 none

/-- `os.path.splitext` (posix): split off the extension at the last dot of
the final path component, provided some character of that component
strictly before the last dot is not itself a dot. -/
def pySplitext (p : String) : String × String :=
  let sepIndex : Int := match lastIndexOf p '/' with | some i => (i : Int) | none => -1
  let dotIndex : Int := match lastIndexOf p '.' with | some i => (i : Int) | none => -1
  if dotIndex > sepIndex then
    let fnameChars := (p.data.drop (sepIndex + 1).toNat).take (dotIndex - sepIndex - 1).toNat
    if fnameChars.any (fun c => c ≠ '.') then
      (⟨p.data.take dotIndex.toNat⟩, ⟨p.data.drop dotIndex.toNat⟩)
    else (p, "")
  else (p, "")

/-- `os.path.splitext(p)[1][1:]`: the extension without its dot. -/
def pyExtOf (p : String) : String := pyDropChars (pySplitext p).2 1

/-- Split a character list at every occurrence of a separator. -/
def splitChars : List Char → Char → List (List Char)
  | [], _ => [[]]
  | c :: cs, sep =>
    if c == sep then [] :: splitChars cs sep
    else
      match splitChars cs sep with
      | r :: rs => (c :: r) :: rs
      | [] => [[c]]

/-- `os.path.split(p)[1]`: the final path component. -/
def pyBasename (p : String) : String :=
  ⟨((splitChars p.data '/').getLastD [])⟩

/-- `SUPPORTED_EXTENSIONS` of `client.py`. -/
def SUPPORTED_EXTENSIONS : List String := ["xlsx", "xlsm", "xlsb", "xls", "csv"]

/-- `IMPORT_BASENAME` of `client.py`. -/
def IMPORT_BASENAME : String := "pyrelatics_webservice"

/-- The `data` argument of `run_import`: a file path, or a list of rows of
key/value pairs. -/
inductive PyData where
  | str (s : String)
  | listRows (rows : List (List (String × String)))
deriving DecidableEq, Repr

/-- Python truth testing of the `data` argument (`not data`). -/
def pyTruthyData : PyData → Bool
  | PyData.str s => !(s == "")
  | PyData.listRows rows => !rows.isEmpty

/-- Externally observable effects of a `run_import` call, in program
order: the WSDL retrieval performed by constructing the suds `Client`
(a network request), creation and removal of the temporary zip file on
disk, and the SOAP `Import` network call. -/
inductive Event where
  | wsdlFetch
  | fileCreated (path : String)
  | fileRemoved (path : String)
  | soapImport (filename : String)
deriving DecidableEq, Repr

/-- Result of a `run_import` run: the effect trace, and either the raised
exception or the `Filename` argument of the issued SOAP call. -/
structure RunOutcome where
  trace : List Event
  result : Except PyError String
deriving Repr

/-- `RelaticsWebservices.run_import`, for entry-code or no authentication
(a `ClientCredential` authentication would add a token request between the
client construction and the SOAP call; it is not exercised by the claims).
`fs` models which file paths exist on disk (`zipfile.ZipFile.write` and
`open` raise `FileNotFoundError` on a missing path).  `tempfile.gettempdir`
is `/tmp`.  Note: after a successful zip build, `del import_zip` (guarded
by `keep_zip_file`) deletes only the Python variable, while
`os.remove(import_zip_path)` runs unconditionally on the success path and
is never reached when an exception escapes the zip construction or the
encoding. -/
def run_import (operation_name : String) (data : PyData)
    (file_name : Option String) (documents : Option (List String))
    (keep_zip_file : Bool) (fs : String → Option String) : RunOutcome :=
  if operation_name == "" then
    { trace := [], result := Except.error (PyError.valueError "Supplied operationName is empty") }
  else if !(pyTruthyData data) then
    { trace := [], result := Except.error (PyError.valueError "Supplied data is empty") }
  else
    -- client = Client(self.wsdl_url): retrieves the WSDL over the network
    let trace0 := [Event.wsdlFetch]
    let extRes : Except PyError String :=
      match data with
      | PyData.listRows _ => Except.ok "xml"
      | PyData.str s =>
        if SUPPORTED_EXTENSIONS.contains (pyExtOf s) then Except.ok (pyExtOf s)
        else Except.error (PyError.typeError "Supplied file has unsupported file extension")
    match extRes with
    | Except.error e => { trace := trace0, result := Except.error e }
    | Except.ok ext0 =>
      let file_basename :=
        match file_name with
        | none => IMPORT_BASENAME
        | some fn => (pySplitext (pyBasename fn)).1
      match documents with
      | some docs =>
        let import_zip_path := "/tmp/" ++ file_basename ++ ".zip"
        -- zipfile.ZipFile(import_zip_path, "w") creates the file on disk
        let trace1 := trace0 ++ [Event.fileCreated import_zip_path]
        -- add the supplied documents; a missing path raises inside the with-block
        let writeDocs : Except PyError Unit :=
          docs.foldl
            (fun acc document_path =>
              match acc with
              | Except.error e => Except.error e
              | Except.ok _ =>
                match fs document_path with
                | some _ => Except.ok ()
                | none => Except.error (PyError.fileNotFoundError document_path))
            (Except.ok ())
        let writeData : Except PyError Unit :=
          match writeDocs with
          | Except.error e => Except.error e
          | Except.ok _ =>
            match data with
            | PyData.listRows _ => Except.ok ()  -- writestr of the generated xml
            | PyData.str s =>
              match fs s with
              | some _ => Except.ok ()
              | none => Except.error (PyError.fileNotFoundError s)
        match writeData with
        | Except.error e =>
          -- the exception propagates: os.remove(import_zip_path) is never reached,
          -- the temporary file stays on disk (keep_zip_file plays no role here)
          { trace := trace1, result := Except.error e }
        | Except.ok _ =>
          -- base64-encode the zip, then os.remove(import_zip_path): this runs
          -- whether or not keep_zip_file is set (the flag only controls
          -- `del import_zip`, which removes the variable, not the file)
          let trace2 := trace1 ++ [Event.fileRemoved import_zip_path]
          let fname := file_basename ++ ".zip"
          { trace := trace2 ++ [Event.soapImport fname], result := Except.ok fname }
      | none =>
        let encRes : Except PyError Unit :=
          match data with
          | PyData.listRows _ => Except.ok ()  -- encode the generated xml
          | PyData.str s =>
            match fs s with
            | some _ => Except.ok ()  -- open(data, "rb") and encode
            | none => Except.error (PyError.fileNotFoundError s)
        match encRes with
        | Except.error e => { trace := trace0, result := Except.error e }
        | Except.ok _ =>
          let fname := file_basename ++ "." ++ ext0
          { trace := trace0 ++ [Event.soapImport fname], result := Except.ok fname }

/- ----------------------------------------------------------------------
   Concrete instances used by the claim theorems
   ---------------------------------------------------------------------- -/

/-- The two-message list of claim C1: a Progress message announcing row
00001, then a Success message, with arbitrary times. -/
def c1_msgs (t1 t2 : String) : List SudsMessage :=
  [ { value := "Processing row : 00001", attrTime := t1, attrResult := "Progress" }
  , { value := "ok", attrTime := t2, attrResult := "Success" } ]

/-- An Import response carrying exactly the messages of claim C1. -/
def c1_resp (t1 t2 : String) : SudsResponse :=
  { Export := none
    Report := none
    Import := some { Message := some (c1_msgs t1 t2), Elements := none } }

/-- A response with an Export node that has no nested error attribute. -/
def c2_input : SudsResponse :=
  { Export := some { attrError := none }, Report := none, Import := none }

/-- A response with an Export node whose nested error attribute is set. -/
def c2_err_input : SudsResponse :=
  { Export := some { attrError := some "boom" }, Report := none, Import := none }

/-- An export success response: a Report node without a Documents field. -/
def c3_export_input : SudsResponse :=
  { Export := none, Report := some { Documents := none }, Import := none }

/-- An import success response: an Import node with no messages. -/
def c3_import_input : SudsResponse :=
  { Export := none, Report := none, Import := some { Message := none, Elements := none } }

/-- The result produced by parsing a null response as an export. -/
def c4_result : ExportResult :=
  { base := { has_error := some true, error_msg := some "None" }
    data := none
    documents := [] }

/-- A response whose Report.Documents text node decodes to a zip archive
with the single entry a.txt containing the bytes of "hello". -/
def c6_input : SudsResponse :=
  { Export := none
    Report := some { Documents := some (DocValue.text [("a.txt", "hello")]) }
    Import := none }

/-- A credential whose cached token for the hostname expired at instant
1000. -/
def c7_cc : ClientCredential :=
  { client_id := "my-client-id"
    client_secret := "my-client-secret"
    tokens := [("example.relaticsonline.com", { token := "staletoken", expires_on := 1000 })] }

/-- Filesystem for the C9 runs: only data.csv and doc.txt exist. -/
def c9_fs : String → Option String :=
  fun p => if p == "data.csv" || p == "doc.txt" then some "x" else none

/-- A credential with an empty token cache. -/
def c10_cc : ClientCredential :=
  { client_id := "my-client-id", client_secret := "my-client-secret", tokens := [] }

/-- The credential c10_cc after retrieving a token for hostname "a" at
instant 0 with expires_in 3600. -/
def c10_cc1 : ClientCredential :=
  { client_id := "my-client-id", client_secret := "my-client-secret"
    tokens := [("a", { token := "tok", expires_on := 3600 })] }

/- ----------------------------------------------------------------------
   Helper lemmas
   ---------------------------------------------------------------------- -/

/-- Updating one key of a Python dict leaves the lookup of every other key
unchanged. -/
theorem pyDictGet_set_ne {α : Type} (l : List (String × α)) (k k' : String) (v : α)
    (h : k' ≠ k) : pyDictGet (pyDictSet l k v) k' = pyDictGet l k' := by
  induction l with
  | nil =>
    simp only [pyDictSet, pyDictGet]
    rw [if_neg (by simp [Ne.symm h])]
  | cons hd tl ih =>
    simp only [pyDictSet]
    by_cases hk : hd.1 = k
    · rw [if_pos (by simp [hk])]
      simp only [pyDictGet]
      rw [if_neg (by simp [Ne.symm h]), if_neg (by simp [hk, Ne.symm h])]
    · rw [if_neg (by simp [hk])]
      simp only [pyDictGet]
      by_cases hk' : hd.1 = k'
      · rw [if_pos (by simp [hk']), if_pos (by simp [hk'])]
      · rw [if_neg (by simp [hk']), if_neg (by simp [hk'])]
        exact ih

/- ----------------------------------------------------------------------
   Claim theorems
   ---------------------------------------------------------------------- -/

/-- C1 (counterexample): on the Import response with messages
[("Progress", "Processing row : 00001", t1), ("Success", "ok", t2)],
ImportResult.from_suds tags the messages with rows [1, 1], not [0, 1] as
the claim states: the row counter is updated before the message that
triggered the update is appended, so the first message does not carry the
pre-update value 0. -/
theorem C1_counterexample :
    (ImportResult.from_suds (some (c1_resp "21:52:34" "21:52:35"))).map
        (fun r => r.messages.map (fun m => m.row)) = Except.ok [1, 1] ∧
    (ImportResult.from_suds (some (c1_resp "21:52:34" "21:52:35"))).map
        (fun r => r.messages.map (fun m => m.row)) ≠ Except.ok [0, 1] := by
  refine ⟨rfl, fun hcontra => ?_⟩
  have h2 : ([1, 1] : List Int) = [0, 1] := Except.ok.inj hcontra
  exact absurd h2 (by decide)

/-- C1 (amended): for the Import response with messages
[("Progress", "Processing row : 00001", t1), ("Success", "ok", t2)],
ImportResult.from_suds produces a messages list where the first message
carries row = 1 (the row counter is updated by its own text before the
append) and the second message carries row = 1. -/
theorem C1_amended (t1 t2 : String) :
    (ImportResult.from_suds (some (c1_resp t1 t2))).map (fun r => r.messages)
      = Except.ok
        [ { time := t1, status := "Progress", message := "Processing row : 00001", row := 1 }
        , { time := t2, status := "Success", message := "ok", row := 1 } ] := rfl

/-- C2 (code bug, evaluated at the failing input): for a response with an
Export field whose nested error attribute is absent, both from_suds
parsers raise TypeError instead of storing a generic serialization of the
response, because the code runs repr() with no argument; when the nested
error attribute is present the claimed behaviour does hold. -/
theorem C2_bug_eval :
    ExportResult.from_suds (some c2_input)
        = Except.error (PyError.typeError "repr() takes exactly one argument (0 given)") ∧
    ImportResult.from_suds (some c2_input)
        = Except.error (PyError.typeError "repr() takes exactly one argument (0 given)") ∧
    (ExportResult.from_suds (some c2_err_input)).map
        (fun r => (r.base.has_error, r.base.error_msg))
      = Except.ok (some true, some "boom") :=
  ⟨rfl, rfl, rfl⟩

/-- C3 (code bug, evaluated at the failing input): for a response with a
Report field (and no Export field) whose Documents attribute is absent,
ExportResult.from_suds never assigns has_error, leaving the truthy
class-level dataclasses.field sentinel in place, so the result does not
have has_error = false and even evaluates falsy; the claim does hold for
ImportResult.from_suds on a response with an Import field. -/
theorem C3_bug_eval :
    (ExportResult.from_suds (some c3_export_input)).map
        (fun r => (r.base.has_error, ExportResult.toBool r))
      = Except.ok (none, false) ∧
    (ImportResult.from_suds (some c3_import_input)).map
        (fun r => r.base.has_error)
      = Except.ok (some false) :=
  ⟨rfl, rfl⟩

/-- C4: for every parse input and both result types, the produced result
evaluates falsy exactly when its has_error attribute is true under Python
truth testing (the bool dunder returns the negation of the attribute's
truth value; an unassigned has_error is the truthy field sentinel). -/
theorem C4_bool_iff_has_error (resp : Option SudsResponse) :
    (∀ r, ExportResult.from_suds resp = Except.ok r →
      (ExportResult.toBool r = false ↔ fieldTruthy r.base.has_error = true)) ∧
    (∀ r, ImportResult.from_suds resp = Except.ok r →
      (ImportResult.toBool r = false ↔ fieldTruthy r.base.has_error = true)) := by
  constructor
  · intro r _
    simp [ExportResult.toBool]
  · intro r _
    simp [ImportResult.toBool]

/-- C4 witness: the equivalence instantiated at the concrete parse of a
null response. -/
theorem C4_witness :
    ExportResult.from_suds none = Except.ok c4_result ∧
    (ExportResult.toBool c4_result = false ↔ fieldTruthy c4_result.base.has_error = true) :=
  ⟨rfl, (C4_bool_iff_has_error none).1 c4_result rfl⟩

/-- C5 (counterexample): parsing a null response sets has_error = true,
but the final error message is "None" (the repr of the null response), not
the empty string the claim states: the unrecognized-response branch also
fires for a null response and overwrites the empty message set by the
common error handler. -/
theorem C5_counterexample :
    (ExportResult.from_suds none).map (fun r => (r.base.has_error, r.base.error_msg))
        = Except.ok (some true, some "None") ∧
    (ExportResult.from_suds none).map (fun r => r.base.error_msg) ≠ Except.ok (some "") := by
  refine ⟨rfl, fun hcontra => ?_⟩
  have h2 : (some "None" : Option String) = some "" := Except.ok.inj hcontra
  exact absurd h2 (by decide)

/-- C5 (amended): when the raw response is absent, from_suds of both
result types returns has_error = true with error message "None", the
serialization of the null response, since the unrecognized-response branch
overwrites the empty message set by the common error handler. -/
theorem C5_amended :
    (ExportResult.from_suds none).map (fun r => (r.base.has_error, r.base.error_msg))
        = Except.ok (some true, some "None") ∧
    (ImportResult.from_suds none).map (fun r => (r.base.has_error, r.base.error_msg))
        = Except.ok (some true, some "None") :=
  ⟨rfl, rfl⟩

/-- C6: for a response whose Report.Documents text node decodes to a zip
archive with the single entry a.txt holding "hello",
ExportResult.from_suds yields exactly that documents map, the retained
response tree in the data field has its Documents attribute deleted (the
Report node survives without it), and the result is marked error-free. -/
theorem C6_documents_extracted :
    (ExportResult.from_suds (some c6_input)).map
        (fun r => (r.documents,
                   r.data.map (fun d => d.Report.map (fun rep => rep.Documents)),
                   r.base.has_error))
      = Except.ok ([("a.txt", "hello")], some (some none), some false) := rfl

/-- C7 (code bug, evaluated at the failing input): with a cached token
that expired at instant 1000, a get_token call at instant 4600 (one hour
past expiry, well after expiry minus the 300 second threshold) issues no
token request and returns the stale token: the code reads the seconds
component of the timedelta, which wraps to 82800 for the negative
difference -3600 and is therefore not below the threshold. -/
theorem C7_bug_eval :
    ClientCredential.get_token c7_cc "example.relaticsonline.com" false 4600
        (TokenResponse.good "newtoken" 3600)
      = Except.ok (c7_cc, "staletoken", false) ∧
    pySecondsAttr (1000 - 4600) = 82800 ∧
    (1000 : Int) - 300 < 4600 :=
  ⟨rfl, by decide, by decide⟩

/-- C8 (counterexample): run_import with the unsupported data file
file.pdf does raise the validation TypeError, but its effect trace already
contains the WSDL retrieval performed by constructing the SOAP client — a
network call attempted before the validation failure, contradicting the
claim. -/
theorem C8_counterexample :
    (run_import "op" (PyData.str "file.pdf") none none false (fun _ => none)).trace
        = [Event.wsdlFetch] ∧
    (run_import "op" (PyData.str "file.pdf") none none false (fun _ => none)).result
        = Except.error (PyError.typeError "Supplied file has unsupported file extension") :=
  ⟨rfl, rfl⟩

/-- C8 (amended): for every data file path whose extension is outside the
supported set, run_import raises TypeError before the SOAP Import call,
any token request and any file-system effect, but after the SOAP client
construction, which retrieves the WSDL over the network. -/
theorem C8_amended (op s : String) (fn : Option String) (docs : Option (List String))
    (kz : Bool) (fs : String → Option String)
    (hop : op ≠ "") (hs : s ≠ "") (hext : pyExtOf s ∉ SUPPORTED_EXTENSIONS) :
    run_import op (PyData.str s) fn docs kz fs
      = { trace := [Event.wsdlFetch]
          result := Except.error (PyError.typeError "Supplied file has unsupported file extension") } := by
  unfold run_import
  have h1 : (op == "") = false := by simp [hop]
  have h2 : pyTruthyData (PyData.str s) = true := by simp [pyTruthyData, hs]
  have h3 : SUPPORTED_EXTENSIONS.contains (pyExtOf s) = false := by
    simp [List.contains_eq_any_beq, hext]
  rw [if_neg (by simp [h1])]
  rw [if_neg (by simp [h2])]
  simp only [h3]
  rw [if_neg (by simp)]

/-- C8 witness: the amended statement applied at the concrete unsupported
input file.pdf. -/
theorem C8_witness :
    ("op" : String) ≠ "" ∧ ("file.pdf" : String) ≠ "" ∧
    pyExtOf "file.pdf" ∉ SUPPORTED_EXTENSIONS ∧
    run_import "op" (PyData.str "file.pdf") none none false (fun _ => none)
      = { trace := [Event.wsdlFetch]
          result := Except.error (PyError.typeError "Supplied file has unsupported file extension") } :=
  ⟨by decide, by decide, by decide,
   C8_amended "op" "file.pdf" none none false (fun _ => none)
     (by decide) (by decide) (by decide)⟩

/-- C9 (code bug, evaluated at the failing inputs): first, when adding a
missing document to the zip raises, the run ends with FileNotFoundError
and the trace records the creation of the temporary zip file but no
removal — the file stays on disk, so removal is not guaranteed on failure;
second, on a successful run with keep_zip_file set, the trace still
records the removal of the zip file — the flag does not keep the file,
contradicting its own docstring ("Optionally keep the created zipfile"). -/
theorem C9_bug_eval :
    ((run_import "op" (PyData.str "data.csv") none (some ["missing.doc"]) false c9_fs).trace
        = [Event.wsdlFetch, Event.fileCreated "/tmp/pyrelatics_webservice.zip"] ∧
     (run_import "op" (PyData.str "data.csv") none (some ["missing.doc"]) false c9_fs).result
        = Except.error (PyError.fileNotFoundError "missing.doc")) ∧
    (run_import "op" (PyData.str "data.csv") none (some ["doc.txt"]) true c9_fs).trace
        = [ Event.wsdlFetch, Event.fileCreated "/tmp/pyrelatics_webservice.zip"
          , Event.fileRemoved "/tmp/pyrelatics_webservice.zip"
          , Event.soapImport "pyrelatics_webservice.zip" ] :=
  ⟨⟨rfl, rfl⟩, rfl⟩

/-- C10: a successful get_token call mutates at most the token-cache entry
of the requested hostname: the client id, the client secret and the cached
entry of every other hostname are unchanged afterwards. -/
theorem C10_get_token_frame (cc : ClientCredential) (hostname : String)
    (force_refresh : Bool) (now : Int) (resp : TokenResponse)
    (cc' : ClientCredential) (tok : String) (issued : Bool)
    (h : ClientCredential.get_token cc hostname force_refresh now resp
          = Except.ok (cc', tok, issued)) :
    cc'.client_id = cc.client_id ∧ cc'.client_secret = cc.client_secret ∧
      ∀ h', h' ≠ hostname → pyDictGet cc'.tokens h' = pyDictGet cc.tokens h' := by
  unfold ClientCredential.get_token at h
  by_cases hneeds : (force_refresh ||
      (match pyDictGet cc.tokens hostname with
       | none => true
       | some entry => decide (pySecondsAttr (entry.expires_on - now) ≤ 300))) = true
  · rw [if_pos hneeds] at h
    cases resp with
    | err e d => simp [ClientCredential.retrieve_token] at h
    | missing => simp [ClientCredential.retrieve_token] at h
    | good tk ei =>
      simp only [ClientCredential.retrieve_token] at h
      cases hfind : pyDictGet (pyDictSet cc.tokens hostname { token := tk, expires_on := now + ei }) hostname with
      | none => rw [hfind] at h; exact absurd h (by simp)
      | some entry =>
        rw [hfind] at h
        have hinj := Except.ok.inj h
        have hcc' : cc' = { cc with tokens := pyDictSet cc.tokens hostname { token := tk, expires_on := now + ei } } :=
          (congrArg Prod.fst hinj).symm
        subst hcc'
        refine ⟨rfl, rfl, ?_⟩
        intro h' hne
        exact pyDictGet_set_ne cc.tokens hostname h' _ hne
  · rw [if_neg hneeds] at h
    cases hfind : pyDictGet cc.tokens hostname with
    | none => rw [hfind] at h; exact absurd h (by simp)
    | some entry =>
      rw [hfind] at h
      have hinj := Except.ok.inj h
      have hcc' : cc' = cc := (congrArg Prod.fst hinj).symm
      subst hcc'
      exact ⟨rfl, rfl, fun _ _ => rfl⟩

/-- C10 witness: the frame property applied to a concrete successful
retrieval for hostname "a", instantiated at the unrelated hostname "b". -/
theorem C10_witness :
    ClientCredential.get_token c10_cc "a" false 0 (TokenResponse.good "tok" 3600)
        = Except.ok (c10_cc1, "tok", true) ∧
    c10_cc1.client_id = c10_cc.client_id ∧ c10_cc1.client_secret = c10_cc.client_secret ∧
    pyDictGet c10_cc1.tokens "b" = pyDictGet c10_cc.tokens "b" := by
  have happ := C10_get_token_frame c10_cc "a" false 0 (TokenResponse.good "tok" 3600)
    c10_cc1 "tok" true rfl
  exact ⟨rfl, happ.1, happ.2.1, happ.2.2 "b" (by decide)⟩
